import Mathlib

/-!
Verification development for the kill-event ingestion and aggregation pipeline
of the game-server companion bot (`bot/cogs/stats.py`).

The Python code is shallowly embedded: dictionaries of dynamically typed
values become association lists of `PyValue`, the per-cog mutable attributes
become explicit state records, awaited collaborator calls that can raise
become `Except`-valued parameters of the model, and each `async def` of the
cog becomes a total Lean function on those states (totality mirrors the fact
that the corresponding Python path cannot raise to its caller, or that every
raise site is enclosed in a `try`/`except` documented at the definition).
-/

/-- A dynamically typed Python value, restricted to the types the pipeline
handles.  `VFloat` carries a finiteness flag: `VFloat false q` models a
non-finite float (NaN or an infinity); no code in the cog ever inspects the
flag, because `isinstance` checks only look at the runtime type tag. -/
inductive PyValue where
  | VNone : PyValue
  | VBool : Bool → PyValue
  | VInt : ℤ → PyValue
  | VFloat : Bool → ℚ → PyValue
  | VStr : String → PyValue
deriving DecidableEq

/-- A Python dict with string keys, as passed to `add_kill_event`. -/
abbrev PyDict := List (String × PyValue)

/-- `d.get(k)`: the value stored at `k`, or `None` when the key is absent.
A key stored with value `None` and an absent key are indistinguishable to
`dict.get`, so both map to `VNone`. -/
def pyGet (e : PyDict) (k : String) : PyValue :=
  ((e.find? (fun p => p.1 == k)).map Prod.snd).getD PyValue.VNone

/-- Python `v is None`. -/
def isNoneV : PyValue → Bool
  | .VNone => true
  | _ => false

/-- Python `isinstance(v, int)`.  `bool` is a subclass of `int` in Python,
so a `VBool` passes this check. -/
def isInstInt : PyValue → Bool
  | .VInt _ => true
  | .VBool _ => true
  | _ => false

/-- Python `isinstance(v, str)`. -/
def isInstStr : PyValue → Bool
  | .VStr _ => true
  | _ => false

/-- Python `isinstance(v, (int, float))`.  Again `bool` passes via `int`. -/
def isInstNumeric : PyValue → Bool
  | .VInt _ => true
  | .VFloat _ _ => true
  | .VBool _ => true
  | _ => false

/-- Python `isinstance(v, bool)`. -/
def isInstBool : PyValue → Bool
  | .VBool _ => true
  | _ => false

/-- The `required_fields` list of `validate_kill_event`. -/
def required_fields : List String :=
  ["guild_id", "killer", "victim", "weapon", "timestamp", "server_id", "is_suicide"]

/-- `validate_kill_event` (stats.py lines 42-63).  The source is a chain of
early `return False` checks; the model conjoins them, which yields the same
boolean.  Every operation on this path (`dict.get`, `isinstance`, `all`) is
total in Python, so the embedding is a total function. -/
def validate_kill_event (e : PyDict) : Bool :=
  (required_fields.all (fun f => !(isNoneV (pyGet e f)))) &&
  isInstInt (pyGet e "guild_id") &&
  (["killer", "victim", "weapon", "server_id"].all (fun k => isInstStr (pyGet e k))) &&
  isInstNumeric (pyGet e "timestamp") &&
  isInstBool (pyGet e "is_suicide")

/-- Modelled from the spec wording of claim C5: an event is malformed when a
required field is missing or null, or a field has the wrong type.  Types are
read per the KillEvent data model under Python `isinstance` semantics (the
semantics the source's checks use).  This definition exists to be compared
with `validate_kill_event`, which is translated from the source. -/
def specMalformed (e : PyDict) : Bool :=
  (required_fields.any (fun f => isNoneV (pyGet e f))) ||
  !(isInstInt (pyGet e "guild_id")) ||
  !(isInstStr (pyGet e "killer")) ||
  !(isInstStr (pyGet e "victim")) ||
  !(isInstStr (pyGet e "weapon")) ||
  !(isInstStr (pyGet e "server_id")) ||
  !(isInstNumeric (pyGet e "timestamp")) ||
  !(isInstBool (pyGet e "is_suicide"))

/-- The `self.flood_threshold = 5` attribute. -/
def flood_threshold : ℕ := 5

/-- The `self.time_window = 60` attribute (seconds). -/
def time_window : ℚ := 60

/-- The `self.buffer_size = 50` attribute. -/
def buffer_size : ℕ := 50

/-- The `self.processing_interval = 10` attribute.  Declared in `__init__`
with the comment "Interval (seconds) to process events if buffer not full",
but no method of the cog ever reads it (relevant to claim C4). -/
def processing_interval : ℕ := 10

/-- One call of `is_flood(killer)` (stats.py lines 65-79) at wall-clock time
`now`, acting on the `recent_kill_times` dict (modelled as a total function
defaulting to `[]`, which matches the lazy `dict[killer] = []` creation).
Returns the updated dict and the `is_flooding` result: old entries with
`now - t > time_window` are dropped, `now` is appended, and flooding holds
when the resulting count exceeds `flood_threshold`. -/
def isFloodUpdate (recent : String → List ℚ) (killer : String) (now : ℚ) :
    (String → List ℚ) × Bool :=
  let pruned := (recent killer).filter (fun t => decide (now - t ≤ time_window))
  let updated := pruned ++ [now]
  (fun k => if k = killer then updated else recent k,
   decide (flood_threshold < updated.length))

/-- Successive `is_flood` calls for one actor at the given call times,
collecting each call's boolean result. -/
def floodCallSeq : (String → List ℚ) → String → List ℚ → List Bool
  | _, _, [] => []
  | recent, killer, t :: ts =>
    (isFloodUpdate recent killer t).2 ::
      floodCallSeq (isFloodUpdate recent killer t).1 killer ts

/-- Helper for reasoning about `floodCallSeq`: the flag sequence produced
when every pruning step keeps the whole window, starting from a window of
`n` timestamps and making `m` further calls. -/
def floodFlags : ℕ → ℕ → List Bool
  | _, 0 => []
  | n, m + 1 => decide (flood_threshold < n + 1) :: floodFlags (n + 1) m

/-- The premium interface of `db_manager`: `has_premium_access` may be
absent (`hasattr` fails) and, when present, may raise (modelled by
`Except`). -/
structure DbIface where
  hasPremiumAccess : Option (ℤ → Except Unit Bool)

/-- The attributes of `self.bot` the processor cog reads.  `premium2` models
`bot.premium_manager_v2.has_premium_access` (absent when either `hasattr`
check fails); `dbManager = none` models `db_manager` missing or `None`
(both make `hasattr(...) and self.bot.db_manager` falsy). -/
structure BotObj where
  ready : Bool
  premium2 : Option (ℤ → Except Unit Bool)
  dbManager : Option DbIface

/-- `is_premium` (stats.py lines 27-40): consult `premium_manager_v2` first,
fall back to `db_manager.has_premium_access`, return `False` when neither is
available; the enclosing `try`/`except` turns any raise from the consulted
provider into `False`, so the embedding is a total `Bool`-valued function
(no exception reaches the caller). -/
def is_premium (bot : BotObj) (guild_id : ℤ) : Bool :=
  match bot.premium2 with
  | some f =>
    match f guild_id with
    | .ok b => b
    | .error _ => false
  | none =>
    match bot.dbManager with
    | some d =>
      match d.hasPremiumAccess with
      | some f =>
        match f guild_id with
        | .ok b => b
        | .error _ => false
      | none => false
    | none => false

/-- The typed view of a kill event extracted at the top of
`process_single_kill_event` (stats.py lines 130-136).  `timestamp` is kept
as the raw Python value: the source binds it but never uses it. -/
structure KillEvent where
  guild_id : ℤ
  killer : String
  victim : String
  weapon : String
  server_id : String
  timestamp : PyValue
  is_suicide : Bool
deriving DecidableEq

/-- Python integer coercion of a value used where an `int` is expected
(`bool` acts as `0`/`1`). -/
def pyToInt : PyValue → Option ℤ
  | .VInt n => some n
  | .VBool b => some (if b then 1 else 0)
  | _ => none

def pyToStr : PyValue → Option String
  | .VStr s => some s
  | _ => none

def pyToBool : PyValue → Option Bool
  | .VBool b => some b
  | _ => none

/-- Field extraction performed by `process_single_kill_event` on the typed
domain established by `validate_kill_event` (the only events the buffer
feeds it).  On an event outside that domain the extraction fails and the
surrounding `except` of the source returns with no effect, which the `none`
branch of `processSingle` mirrors. -/
def toKillEvent (e : PyDict) : Option KillEvent :=
  match pyToInt (pyGet e "guild_id"), pyToStr (pyGet e "killer"),
        pyToStr (pyGet e "victim"), pyToStr (pyGet e "weapon"),
        pyToStr (pyGet e "server_id"), pyToBool (pyGet e "is_suicide") with
  | some g, some k, some v, some w, some sid, some su =>
    some ⟨g, k, v, w, sid, pyGet e "timestamp", su⟩
  | _, _, _, _, _, _ => none

/-- The per-player counters of a `PlayerStatRecord`. -/
structure PlayerStats where
  kills : ℕ
  deaths : ℕ
  suicides : ℕ
deriving DecidableEq

/-- The persisted stats store, keyed by (guild_id, player, server_id);
`none` models a player with no record yet (`get_player_stats` falsy). -/
abbrev Store := ℤ × String × String → Option PlayerStats

/-- The `{'kills': 0, 'deaths': 0, 'suicides': 0}` initializer. -/
def zeroStats : PlayerStats := ⟨0, 0, 0⟩

/-- `update_player_stats(guild_id, player, server_id, kills=…, deaths=…,
suicides=…)`: sets the player's counters to the given absolute values. -/
def updateStats (st : Store) (g : ℤ) (p sid : String) (v : PlayerStats) : Store :=
  fun k => if k = (g, p, sid) then some v else st k

/-- The counter-update portion of `process_single_kill_event` (stats.py
lines 150-181), after the premium gate and flood check have passed and the
two `get_player_stats` reads have been taken (both reads happen before
either write).  A suicide writes only the killer row with `suicides + 1`;
otherwise the killer row is written with `kills + 1` and then the victim
row with `deaths + 1` — two separate absolute-value writes, so when killer
and victim name the same row the second write overwrites the first. -/
def applyKillEvent (st : Store) (ev : KillEvent) : Store :=
  let ks := (st (ev.guild_id, ev.killer, ev.server_id)).getD zeroStats
  let vs := (st (ev.guild_id, ev.victim, ev.server_id)).getD zeroStats
  if ev.is_suicide then
    updateStats st ev.guild_id ev.killer ev.server_id
      ⟨ks.kills, ks.deaths, ks.suicides + 1⟩
  else
    let st1 := updateStats st ev.guild_id ev.killer ev.server_id
      ⟨ks.kills + 1, ks.deaths, ks.suicides⟩
    updateStats st1 ev.guild_id ev.victim ev.server_id
      ⟨vs.kills, vs.deaths + 1, vs.suicides⟩

/-- The mutable state of the `ScalableUnifiedProcessor` cog together with
the persistent store behind `db_manager` (`db_events` is the append-only
`record_kill_event` log, `db_stats` the per-player counters). -/
structure ProcState where
  bot : BotObj
  processor_enabled : Bool
  kill_event_buffer : List PyDict
  recent_kill_times : String → List ℚ
  processor_running : Bool
  db_events : List KillEvent
  db_stats : Store

/-- `process_single_kill_event` (stats.py lines 125-193) at wall-clock time
`now`: extract the fields, skip the event when the guild lacks premium,
then run the flood check (which records the event's time either way) and
skip flooding events; otherwise append to the audit log and apply the
counter updates.  Both `except` handlers of the source only log, so the
embedding returns the state reached; database calls are modelled on their
successful execution (a raise is caught per event by the inner handler). -/
def processSingle (s : ProcState) (e : PyDict) (now : ℚ) : ProcState :=
  match toKillEvent e with
  | none => s
  | some ev =>
    if is_premium s.bot ev.guild_id = false then s
    else
      let r := isFloodUpdate s.recent_kill_times ev.killer now
      let s1 := { s with recent_kill_times := r.1 }
      if r.2 then s1
      else { s1 with db_events := s1.db_events ++ [ev],
                     db_stats := applyKillEvent s1.db_stats ev }

/-- The `while self.kill_event_buffer:` drain loop of `process_kill_events`
(stats.py lines 111-118): repeatedly slice off a batch of 20, leave the
remainder in the buffer, and process the batch events (the `asyncio.gather`
fan-out is modelled as in-order execution; no claim here depends on the
interleaving of the per-event units). -/
def drainBatches (now : ℚ) : List PyDict → ProcState → ProcState
  | [], s => s
  | e :: rest0, s =>
    let batch := (e :: rest0).take 20
    let rest := (e :: rest0).drop 20
    let s2 := batch.foldl (fun st ev => processSingle st ev now)
      { s with kill_event_buffer := rest }
    drainBatches now rest s2
termination_by l _ => l.length
decreasing_by simp only [List.length_drop, List.length_cons]; omega

/-- `process_kill_events` (stats.py lines 95-123): return immediately when
the processor is disabled, the bot is not ready, `db_manager` is missing or
`None`, or the buffer is empty; otherwise drain the buffer in batches.  The
`try`/`except` around the loop only logs. -/
def processKillEvents (s : ProcState) (now : ℚ) : ProcState :=
  if s.processor_enabled = false then s
  else if s.bot.ready = false then s
  else if s.bot.dbManager.isNone then s
  else if s.kill_event_buffer.isEmpty then s
  else drainBatches now s.kill_event_buffer s

/-- `add_kill_event` (stats.py lines 81-93), the ingestion entry point:
return at once when the processor is disabled; drop the event when
validation fails; otherwise append it to the buffer and, when occupancy has
reached `buffer_size`, process immediately.  Every operation on the
pre-append path is total, so no exception can reach the caller. -/
def addKillEvent (s : ProcState) (e : PyDict) (now : ℚ) : ProcState :=
  if s.processor_enabled = false then s
  else if validate_kill_event e = false then s
  else
    let s1 := { s with kill_event_buffer := s.kill_event_buffer ++ [e] }
    if buffer_size ≤ s1.kill_event_buffer.length then processKillEvents s1 now
    else s1

/-- `on_ready` (stats.py lines 19-25): when the processor task is not yet
running, create the `process_kill_events` task and set the flag.  The
created task is a single invocation of `process_kill_events` — the function
contains no loop around a sleep — so the sequential model runs it to
completion here. -/
def onReady (s : ProcState) (now : ℚ) : ProcState :=
  if s.processor_running then s
  else { processKillEvents s now with processor_running := true }

/-- `toggle_processor` (stats.py lines 195-202): flip the enabled flag. -/
def toggleProcessor (s : ProcState) : ProcState :=
  { s with processor_enabled := !s.processor_enabled }

/-- The identity tuple of a leaderboard task:
(guild_id, channel_id, leaderboard_type, server_id). -/
abbrev TaskId := ℤ × ℤ × String × String

/-- An interruption delivered at an `await` point: `cancelled` is
`asyncio.CancelledError` (a `BaseException`, not caught by
`except Exception`), `exc` an ordinary `Exception`. -/
inductive PyInterrupt where
  | cancelled
  | exc
deriving DecidableEq

/-- Outcome of the `await db_manager.get_leaderboard(...)` call inside the
iteration `try`: data returned (with its truthiness), an ordinary raise
caught by the iteration's `except Exception`, or cancellation. -/
inductive FetchOut where
  | got (nonempty : Bool)
  | raisedCaught
  | cancelledAt
deriving DecidableEq

/-- Outcome of `await EmbedFactory.build('leaderboard', ...)`: a pair whose
embed component has the given truthiness, an ordinary raise caught by the
iteration's `except Exception`, or cancellation. -/
inductive BuildOut where
  | built (truthy : Bool)
  | raisedCaught
  | cancelledAt
deriving DecidableEq

/-- Outcome of `await message.edit(...)`: success; `discord.errors.NotFound`
(caught: the message reference is reset to `None`); any other ordinary raise
(caught and logged, reference kept); or cancellation. -/
inductive EditOut where
  | edited
  | notFound
  | failedCaught
  | cancelledAt
deriving DecidableEq

/-- Outcome of the `channel.send` / `update_leaderboard_message_id` pair:
success, an ordinary raise caught by `except Exception as send_error`
(which discards the task id and returns), or cancellation. -/
inductive SendOut where
  | sent
  | failedCaught
  | cancelledAt
deriving DecidableEq

/-- The environment one iteration of the `while True:` loop of
`run_leaderboard_task` runs against: availability of `db_manager` and the
outcome of each awaited collaborator call, including what happens at the
closing `asyncio.sleep` (`none` means the sleep completes). -/
structure LBIterEnv where
  dbPresent : Bool
  fetch : FetchOut
  build : BuildOut
  edit : EditOut
  send : SendOut
  sleepInterrupt : Option PyInterrupt
deriving DecidableEq

/-- How one loop iteration body (the region from `if not hasattr... ` to the
end of the inner `except`) leaves the task: an in-loop `return` (carrying
the running-task set as updated by the `discard` preceding it), fall-through
to the sleep with the current message reference, or a propagating
interruption. -/
inductive IterRes where
  | ret (r : Finset TaskId)
  | next (msg : Bool)
  | interrupt (i : PyInterrupt)
deriving DecidableEq

/-- The `if not message:` send branch of the iteration (stats.py lines
360-369): on success the new message is held; a caught failure discards the
task id and returns; cancellation propagates. -/
def lbSendPhase (tid : TaskId) (running : Finset TaskId) (env : LBIterEnv) : IterRes :=
  match env.send with
  | .sent => .next true
  | .failedCaught => .ret (running.erase tid)
  | .cancelledAt => .interrupt .cancelled

/-- One iteration body of `run_leaderboard_task`'s `while True:` loop
(stats.py lines 324-374), given whether a message reference is currently
held.  CancelledError passes through the `except Exception` handlers; the
missing-`db_manager` branch discards the task id and returns. -/
def lbIter (tid : TaskId) (running : Finset TaskId) (msg : Bool) (env : LBIterEnv) : IterRes :=
  if env.dbPresent = false then .ret (running.erase tid)
  else
    match env.fetch with
    | .cancelledAt => .interrupt .cancelled
    | .raisedCaught => .next msg
    | .got nonempty =>
      match (if nonempty then env.build else .built true) with
      | .cancelledAt => .interrupt .cancelled
      | .raisedCaught => .next msg
      | .built truthy =>
        if truthy = false then .next msg
        else if msg then
          match env.edit with
          | .cancelledAt => .interrupt .cancelled
          | .edited => .next true
          | .failedCaught => .next true
          | .notFound => lbSendPhase tid running env
        else lbSendPhase tid running env

/-- How the whole `try` body of `run_leaderboard_task` ends: a `return`
(with the set as left by its preceding `discard`), a propagating
interruption, or — when the supplied iteration environments run out with
the loop still going — the task simply still running. -/
inductive LoopRes where
  | returned (r : Finset TaskId)
  | interrupted (i : PyInterrupt)
  | stillRunning
deriving DecidableEq

/-- The `while True:` loop, driven by one environment per iteration; each
completed iteration ends in `await asyncio.sleep(update_interval * 3600)`,
where an interruption may be delivered. -/
def lbLoop (tid : TaskId) (running : Finset TaskId) :
    Bool → List LBIterEnv → LoopRes
  | _, [] => .stillRunning
  | msg, env :: rest =>
    match lbIter tid running msg env with
    | .ret r => .returned r
    | .interrupt i => .interrupted i
    | .next msg2 =>
      match env.sleepInterrupt with
      | some i => .interrupted i
      | none => lbLoop tid running msg2 rest

/-- Outcome of the initial `channel.fetch_message(initial_message_id)`:
found; `discord.NotFound` caught (no message held); another ordinary raise
caught (no message held); or cancellation. -/
inductive InitFetchOut where
  | found
  | notFoundCaught
  | failedCaught
  | cancelledAt
deriving DecidableEq

/-- The environment of the pre-loop part of `run_leaderboard_task` (stats.py
lines 302-322): what happens at `wait_until_ready`, whether the guild and a
valid text channel resolve, and the initial message fetch (`none` when no
`initial_message_id` was supplied). -/
structure LBStartEnv where
  readyInterrupt : Option PyInterrupt
  guildFound : Bool
  channelOk : Bool
  initialFetch : Option InitFetchOut
deriving DecidableEq

/-- The `try` body of `run_leaderboard_task`: missing guild or channel
discards the task id and returns; otherwise the loop runs with a message
reference iff the initial fetch found one. -/
def lbBody (tid : TaskId) (running : Finset TaskId) (start : LBStartEnv)
    (envs : List LBIterEnv) : LoopRes :=
  match start.readyInterrupt with
  | some i => .interrupted i
  | none =>
    if start.guildFound = false then .returned (running.erase tid)
    else if start.channelOk = false then .returned (running.erase tid)
    else
      match start.initialFetch with
      | some .cancelledAt => .interrupted .cancelled
      | some .found => lbLoop tid running true envs
      | some .notFoundCaught => lbLoop tid running false envs
      | some .failedCaught => lbLoop tid running false envs
      | none => lbLoop tid running false envs

/-- `run_leaderboard_task` (stats.py lines 296-384): the `try` body wrapped
in `except asyncio.CancelledError` / `except Exception` (both only log) and
a `finally:` that discards the task's id from the running-task set.  The
result is `none` when the loop is still running (the `finally` has not yet
run), and otherwise the final running-task set. -/
def runLeaderboardTask (tid : TaskId) (running : Finset TaskId)
    (start : LBStartEnv) (envs : List LBIterEnv) : Option (Finset TaskId) :=
  match lbBody tid running start envs with
  | .stillRunning => none
  | .returned r => some (r.erase tid)
  | .interrupted _ => some (running.erase tid)

/-- The mutable state of the `AutomatedLeaderboard` cog: the running-task
set, the log of `create_task(run_leaderboard_task(...))` calls (to count
started tasks), and the configurations saved through
`add_automated_leaderboard`. -/
structure LBState where
  running_tasks : Finset TaskId
  started : List TaskId
  db_configs : List (ℤ × ℤ × String × String × ℤ)

/-- Python `server or 'default'`: `None` and the empty string are falsy. -/
def pyOrDefault : Option String → String
  | none => "default"
  | some s => if s = "" then "default" else s

/-- The arguments and collaborator behavior of one `/automated create`
invocation: the command inputs, whether `db_manager` is present, and
whether the `add_automated_leaderboard` call succeeds (a raise there is
caught by the command's outer `except`, and no task is started). -/
structure CreateParams where
  guild_id : ℤ
  channel_id : ℤ
  leaderboard_type : String
  server : Option String
  update_interval : ℤ
  dbPresent : Bool
  dbAddOk : Bool

/-- The identity tuple `create_leaderboard` computes for its inputs. -/
def createTaskId (p : CreateParams) : TaskId :=
  (p.guild_id, p.channel_id, p.leaderboard_type, pyOrDefault p.server)

/-- `create_leaderboard` (stats.py lines 388-445): reject an out-of-range
update interval, refuse when the identity tuple is already in the
running-task set, require `db_manager`, save the configuration, then add
the tuple to the set and start the task. -/
def createLeaderboard (st : LBState) (p : CreateParams) : LBState :=
  let tid := createTaskId p
  if ¬(1 ≤ p.update_interval ∧ p.update_interval ≤ 720) then st
  else if tid ∈ st.running_tasks then st
  else if p.dbPresent = false then st
  else if p.dbAddOk = false then st
  else
    { st with
      db_configs := st.db_configs ++
        [(p.guild_id, p.channel_id, p.leaderboard_type, pyOrDefault p.server,
          p.update_interval)],
      running_tasks := insert tid st.running_tasks,
      started := st.started ++ [tid] }

/-- One persisted leaderboard configuration document, with `dict.get`
absence modelled by `Option`. -/
structure LBConfig where
  channel_id : Option ℤ
  leaderboard_type : Option String
  server_id : Option String
  update_interval : Option ℤ
  message_id : Option ℤ

/-- Python truthiness of an optional integer (`None` and `0` are falsy). -/
def pyTruthyInt : Option ℤ → Bool
  | none => false
  | some n => decide (n ≠ 0)

/-- Python truthiness of an optional string (`None` and `""` are falsy). -/
def pyTruthyStr : Option String → Bool
  | none => false
  | some s => decide (s ≠ "")

/-- The identity tuple `cog_load` computes for one configuration (server_id
defaults to `'default'` when the key is absent, update_interval to 24). -/
def loadTaskId (guild_id : ℤ) (c : LBConfig) : TaskId :=
  (guild_id, c.channel_id.getD 0, c.leaderboard_type.getD "",
   c.server_id.getD "default")

/-- One configuration step of `cog_load` (stats.py lines 255-286): skip the
config when any of channel_id, leaderboard_type, server_id, update_interval
is falsy (the `if not all([...])` check; the isinstance checks on the ids
always pass in the model, whose ids are integers); then start the task only
when its identity tuple is not already in the running-task set. -/
def cogLoadStep (st : LBState) (guild_id : ℤ) (c : LBConfig) : LBState :=
  if ¬(pyTruthyInt c.channel_id = true ∧ pyTruthyStr c.leaderboard_type = true ∧
       c.server_id.getD "default" ≠ "" ∧ c.update_interval.getD 24 ≠ 0) then st
  else
    let tid := loadTaskId guild_id c
    if tid ∈ st.running_tasks then st
    else { st with running_tasks := insert tid st.running_tasks,
                   started := st.started ++ [tid] }

/-- Concrete inputs used by counterexamples and witnesses. -/
def emptyStore : Store := fun _ => none

/-- A non-suicide event naming the same player as killer and victim. -/
def evAA : KillEvent := ⟨1, "A", "A", "w", "srv", .VFloat true 0, false⟩

/-- A non-suicide event with distinct killer and victim. -/
def evAB : KillEvent := ⟨1, "A", "B", "w", "srv", .VFloat true 0, false⟩

/-- A suicide event. -/
def evSui : KillEvent := ⟨1, "A", "B", "w", "srv", .VFloat true 0, true⟩

/-- A well-formed raw kill event, as the log watcher would submit it. -/
def evValid : PyDict :=
  [("guild_id", .VInt 1), ("killer", .VStr "A"), ("victim", .VStr "B"),
   ("weapon", .VStr "rifle"), ("timestamp", .VFloat true 100),
   ("server_id", .VStr "srv"), ("is_suicide", .VBool false)]

/-- A malformed raw event: every required field except guild_id missing. -/
def evMissing : PyDict := [("guild_id", .VInt 1)]

/-- A raw event whose killer is the empty string (all checks of
`validate_kill_event` pass: the emptiness is never inspected). -/
def evEmptyKiller : PyDict :=
  [("guild_id", .VInt 1), ("killer", .VStr ""), ("victim", .VStr "B"),
   ("weapon", .VStr "w"), ("timestamp", .VInt 5),
   ("server_id", .VStr "srv"), ("is_suicide", .VBool false)]

/-- A raw event whose timestamp is a non-finite float (NaN/inf): the
`isinstance(timestamp, (int, float))` check still passes. -/
def evNanTs : PyDict :=
  [("guild_id", .VInt 1), ("killer", .VStr "A"), ("victim", .VStr "B"),
   ("weapon", .VStr "w"), ("timestamp", .VFloat false 0),
   ("server_id", .VStr "srv"), ("is_suicide", .VBool false)]

/-- A bot with every collaborator present and premium always granted. -/
def botReady : BotObj :=
  { ready := true, premium2 := some (fun _ => Except.ok true),
    dbManager := some { hasPremiumAccess := none } }

/-- A bot with no premium provider and no database manager. -/
def botBare : BotObj := { ready := true, premium2 := none, dbManager := none }

/-- An idle processor state with empty buffer and no recorded kill times. -/
def s0 : ProcState :=
  { bot := botBare, processor_enabled := true, kill_event_buffer := [],
    recent_kill_times := fun _ => [], processor_running := false,
    db_events := [], db_stats := emptyStore }

/-- A processor state in which player "A" already has `flood_threshold`
kill times recorded at time 0 — one more event at time 0 is flooding. -/
def sFlood : ProcState :=
  { bot := botReady, processor_enabled := true, kill_event_buffer := [],
    recent_kill_times := fun k => if k = "A" then [0, 0, 0, 0, 0] else [],
    processor_running := true, db_events := [], db_stats := emptyStore }

/-- A fresh fully-wired processor state, as at process start. -/
def sInit : ProcState :=
  { bot := botReady, processor_enabled := true, kill_event_buffer := [],
    recent_kill_times := fun _ => [], processor_running := false,
    db_events := [], db_stats := emptyStore }

/-- A processor state with the enabled flag switched off. -/
def sDisabled : ProcState := { s0 with processor_enabled := false }

/-- A bot whose primary premium provider answers true. -/
def botPrimaryOk : BotObj :=
  { ready := true, premium2 := some (fun _ => Except.ok true),
    dbManager := none }

/-- A bot whose primary premium provider raises. -/
def botPrimaryErr : BotObj :=
  { ready := true, premium2 := some (fun _ => Except.error ()),
    dbManager := none }

/-- A bot with no primary provider whose fallback provider answers true. -/
def botFallback : BotObj :=
  { ready := true, premium2 := none,
    dbManager := some { hasPremiumAccess := some (fun _ => Except.ok true) } }

/-- A leaderboard task identity tuple used in witnesses. -/
def tidW : TaskId := (1, 2, "kills", "default")

/-- A leaderboard cog state in which `tidW` is already running. -/
def lbStateW : LBState :=
  { running_tasks := {tidW}, started := [], db_configs := [] }

/-- Create-command inputs whose identity tuple is `tidW`. -/
def cparamsW : CreateParams :=
  { guild_id := 1, channel_id := 2, leaderboard_type := "kills",
    server := none, update_interval := 24, dbPresent := true, dbAddOk := true }

/-- A persisted configuration whose identity tuple is `tidW`. -/
def lbcW : LBConfig :=
  { channel_id := some 2, leaderboard_type := some "kills",
    server_id := none, update_interval := some 24, message_id := none }

/-- A task identity tuple for the cancellation witness. -/
def tid9 : TaskId := (3, 4, "deaths", "default")

/-- A start environment in which everything resolves normally. -/
def start9 : LBStartEnv :=
  { readyInterrupt := none, guildFound := true, channelOk := true,
    initialFetch := none }

/-- An iteration that completes its work and is cancelled mid-sleep. -/
def env9 : LBIterEnv :=
  { dbPresent := true, fetch := .got false, build := .built true,
    edit := .edited, send := .sent, sleepInterrupt := some .cancelled }

/-- Pruning at `now` keeps a whole window whose entries lie within
`time_window` of `now`. -/
theorem filter_window_keep (l : List ℚ) (now : ℚ)
    (h : ∀ x ∈ l, now - x ≤ time_window) :
    l.filter (fun x => decide (now - x ≤ time_window)) = l := by
  apply List.filter_eq_self.mpr
  intro x hx
  simpa using h x hx

/-- Under call times all drawn from one `[a, a + 60]` window, every pruning
step of successive `is_flood` calls keeps the whole accumulated window, so
the flag sequence depends only on the starting window length. -/
theorem floodCallSeq_spec (killer : String) (a : ℚ) (ts : List ℚ) :
    ∀ (recent : String → List ℚ) (w : List ℚ), recent killer = w →
      (∀ x ∈ w, a ≤ x ∧ x ≤ a + 60) →
      (∀ x ∈ ts, a ≤ x ∧ x ≤ a + 60) →
      floodCallSeq recent killer ts = floodFlags w.length ts.length := by
  induction ts with
  | nil =>
    intro recent w hr hw hts
    simp [floodCallSeq, floodFlags]
  | cons t ts ih =>
    intro recent w hr hw hts
    have hmemt : a ≤ t ∧ t ≤ a + 60 := hts t (List.mem_cons_self t ts)
    have hkeep : (recent killer).filter (fun x => decide (t - x ≤ time_window)) = w := by
      rw [hr]
      apply filter_window_keep
      intro x hx
      have hb := hw x hx
      rw [time_window]
      linarith [hb.1, hb.2, hmemt.1, hmemt.2]
    have hstep : isFloodUpdate recent killer t =
        ((fun k => if k = killer then w ++ [t] else recent k),
         decide (flood_threshold < (w ++ [t]).length)) := by
      simp only [isFloodUpdate]
      rw [hkeep]
    have hw' : ∀ x ∈ w ++ [t], a ≤ x ∧ x ≤ a + 60 := by
      intro x hx
      rcases List.mem_append.mp hx with h | h
      · exact hw x h
      · rw [List.mem_singleton] at h
        subst h
        exact hmemt
    have hts' : ∀ x ∈ ts, a ≤ x ∧ x ≤ a + 60 :=
      fun x hx => hts x (List.mem_cons_of_mem t hx)
    simp only [floodCallSeq, hstep]
    rw [ih (fun k => if k = killer then w ++ [t] else recent k) (w ++ [t])
        (by simp) hw' hts']
    simp [floodFlags, List.length_append]

/-- C2: for an actor with no prior recorded timestamps, six `is_flood`
calls whose times all fall within one 60-second window return not-flooding
five times and flooding on the sixth — the current time is appended to the
window before the count is compared against the threshold of 5. -/
theorem c2_theorem (recent : String → List ℚ) (killer : String)
    (a t0 t1 t2 t3 t4 t5 : ℚ) (hr : recent killer = [])
    (hw : ∀ x ∈ [t0, t1, t2, t3, t4, t5], a ≤ x ∧ x ≤ a + 60) :
    floodCallSeq recent killer [t0, t1, t2, t3, t4, t5] =
      [false, false, false, false, false, true] := by
  rw [floodCallSeq_spec killer a [t0, t1, t2, t3, t4, t5] recent [] hr
      (by simp) hw]
  rfl

/-- C2 witness: the theorem evaluated on a fresh actor at concrete call
times 0, 12, 24, 36, 48, 60, all inside the window `[0, 60]`. -/
theorem c2_witness :
    floodCallSeq (fun _ => []) "A" [0, 12, 24, 36, 48, 60] =
      [false, false, false, false, false, true] :=
  c2_theorem (fun _ => []) "A" 0 0 12 24 36 48 60 rfl
    (by intro x hx; fin_cases hx <;> norm_num)

/-- C1 counterexample: the claim, read over every valid kill event, fails
at a non-suicide event whose killer and victim name the same player.  On a
zeroed store the claim predicts the record ⟨kills 1, deaths 1, suicides 0⟩
for player "A", but the second absolute-value write overwrites the first,
leaving ⟨kills 0, deaths 1, suicides 0⟩. -/
theorem c1_counterexample :
    applyKillEvent emptyStore evAA (1, "A", "srv") = some ⟨0, 1, 0⟩ ∧
    applyKillEvent emptyStore evAA (1, "A", "srv") ≠ some ⟨1, 1, 0⟩ := by
  constructor
  · rfl
  · decide

/-- C1 (amended): with premium granted and both counter records read, a
suicide increments only the killer's suicides; a non-suicide with distinct
killer and victim increments the killer's kills and the victim's deaths and
touches nothing else; a non-suicide whose killer equals its victim leaves
kills and suicides unchanged and increments only deaths, because the victim
write overwrites the killer write on the same row. -/
theorem c1_theorem (st : Store) (ev : KillEvent) (ks vs : PlayerStats)
    (hks : (st (ev.guild_id, ev.killer, ev.server_id)).getD zeroStats = ks)
    (hvs : (st (ev.guild_id, ev.victim, ev.server_id)).getD zeroStats = vs) :
    (ev.is_suicide = true →
      applyKillEvent st ev (ev.guild_id, ev.killer, ev.server_id) =
        some ⟨ks.kills, ks.deaths, ks.suicides + 1⟩ ∧
      ∀ k, k ≠ (ev.guild_id, ev.killer, ev.server_id) →
        applyKillEvent st ev k = st k) ∧
    (ev.is_suicide = false → ev.killer ≠ ev.victim →
      applyKillEvent st ev (ev.guild_id, ev.killer, ev.server_id) =
        some ⟨ks.kills + 1, ks.deaths, ks.suicides⟩ ∧
      applyKillEvent st ev (ev.guild_id, ev.victim, ev.server_id) =
        some ⟨vs.kills, vs.deaths + 1, vs.suicides⟩ ∧
      ∀ k, k ≠ (ev.guild_id, ev.killer, ev.server_id) →
        k ≠ (ev.guild_id, ev.victim, ev.server_id) →
        applyKillEvent st ev k = st k) ∧
    (ev.is_suicide = false → ev.killer = ev.victim →
      applyKillEvent st ev (ev.guild_id, ev.killer, ev.server_id) =
        some ⟨ks.kills, ks.deaths + 1, ks.suicides⟩ ∧
      ∀ k, k ≠ (ev.guild_id, ev.killer, ev.server_id) →
        applyKillEvent st ev k = st k) := by
  subst hks hvs
  refine ⟨fun hs => ?_, fun hs hne => ?_, fun hs heq => ?_⟩
  · constructor
    · simp [applyKillEvent, updateStats, hs]
    · intro k hk
      simp [applyKillEvent, updateStats, hs, hk]
  · have hkey : ((ev.guild_id, ev.killer, ev.server_id) : ℤ × String × String) ≠
        (ev.guild_id, ev.victim, ev.server_id) := by
      simp [Prod.ext_iff, hne]
    refine ⟨?_, ?_, ?_⟩
    · simp [applyKillEvent, updateStats, hs, hkey]
    · simp [applyKillEvent, updateStats, hs]
    · intro k hk1 hk2
      simp [applyKillEvent, updateStats, hs, hk1, hk2]
  · rw [heq]
    constructor
    · simp [applyKillEvent, updateStats, hs, heq]
    · intro k hk
      simp [applyKillEvent, updateStats, hs, heq, hk]

/-- C1 witness: the amended theorem evaluated on a zeroed store, at the
distinct-player event `evAB` and the suicide event `evSui`. -/
theorem c1_witness :
    applyKillEvent emptyStore evAB (1, "A", "srv") = some ⟨1, 0, 0⟩ ∧
    applyKillEvent emptyStore evAB (1, "B", "srv") = some ⟨0, 1, 0⟩ ∧
    applyKillEvent emptyStore evSui (1, "A", "srv") = some ⟨0, 0, 1⟩ := by
  refine ⟨?_, ?_, ?_⟩
  · exact ((c1_theorem emptyStore evAB zeroStats zeroStats rfl rfl).2.1 rfl
      (by decide)).1
  · exact ((c1_theorem emptyStore evAB zeroStats zeroStats rfl rfl).2.1 rfl
      (by decide)).2.1
  · exact ((c1_theorem emptyStore evSui zeroStats zeroStats rfl rfl).1 rfl).1

/-- C10: when the processor-enabled flag is false, `add_kill_event` returns
immediately — the whole state (buffer, flood windows, database) is exactly
unchanged for every submitted event, valid or not, so the event is never
validated, never stored anywhere, and cannot be recovered by re-enabling
the processor later. -/
theorem c10_theorem (s : ProcState) (e : PyDict) (now : ℚ)
    (h : s.processor_enabled = false) : addKillEvent s e now = s := by
  unfold addKillEvent
  rw [if_pos h]

/-- C10 witness: the theorem evaluated on a disabled state and a valid
event. -/
theorem c10_witness :
    sDisabled.processor_enabled = false ∧
    addKillEvent sDisabled evValid 0 = sDisabled :=
  ⟨rfl, c10_theorem sDisabled evValid 0 rfl⟩

/-- C4: evaluation of the code at the failing input of the claim.  The task
`on_ready` creates is a single run of `process_kill_events` (the function
has no loop around a sleep, and `processing_interval` is never read), so
after `on_ready` completes on an empty buffer, a subsequently added valid
event stays in the buffer: no periodic drain exists to process it. -/
theorem c4_theorem :
    (onReady sInit 0).processor_running = true ∧
    (addKillEvent (onReady sInit 0) evValid 100).kill_event_buffer = [evValid] :=
  ⟨rfl, rfl⟩

/-- An event malformed in the claim's sense fails `validate_kill_event`:
the validator's checks are exactly presence/non-null of the required fields
plus the per-field isinstance checks. -/
theorem validate_false_of_malformed (e : PyDict)
    (h : specMalformed e = true) : validate_kill_event e = false := by
  by_contra hvt
  rw [Bool.not_eq_false] at hvt
  simp only [validate_kill_event, required_fields, List.all_cons, List.all_nil,
    Bool.and_eq_true, Bool.and_true, Bool.not_eq_true'] at hvt
  simp only [specMalformed, required_fields, List.any_cons, List.any_nil,
    Bool.or_eq_true, Bool.or_false, Bool.not_eq_true'] at h
  simp_all

/-- C5: for every malformed input mapping (required field missing or null,
or a field of the wrong type), `add_kill_event` leaves the entire processor
state — in particular the buffer's occupancy — unchanged.  The embedding of
the path is a total function: every Python operation on it (`dict.get`,
`isinstance`, `all`) is non-raising, so no exception reaches the caller. -/
theorem c5_theorem (s : ProcState) (e : PyDict) (now : ℚ)
    (h : specMalformed e = true) : addKillEvent s e now = s := by
  have hv := validate_false_of_malformed e h
  unfold addKillEvent
  by_cases hen : s.processor_enabled = false
  · rw [if_pos hen]
  · rw [if_neg hen, if_pos hv]

/-- C5 witness: the theorem evaluated on an event missing six of the seven
required fields. -/
theorem c5_witness :
    specMalformed evMissing = true ∧ addKillEvent s0 evMissing 0 = s0 :=
  ⟨by decide, c5_theorem s0 evMissing 0 (by decide)⟩

/-- C6 counterexample: the claim says the validator returns false for an
empty string in the name fields or a non-finite timestamp, but
`validate_kill_event` accepts an event whose killer is `""` and an event
whose timestamp is a non-finite float — neither emptiness nor finiteness is
ever checked. -/
theorem c6_counterexample :
    validate_kill_event evEmptyKiller = true ∧
    validate_kill_event evNanTs = true :=
  ⟨by decide, by decide⟩

/-- C6 (amended): every event accepted by the validator has all seven
fields present and non-null with isinstance-correct types — guild_id an
int, killer/victim/weapon/server_id strings, timestamp an int or float,
is_suicide a bool; string emptiness and timestamp finiteness are not
checked and are not guaranteed. -/
theorem c6_theorem (e : PyDict) (h : validate_kill_event e = true) :
    (∀ f ∈ required_fields, isNoneV (pyGet e f) = false) ∧
    isInstInt (pyGet e "guild_id") = true ∧
    isInstStr (pyGet e "killer") = true ∧
    isInstStr (pyGet e "victim") = true ∧
    isInstStr (pyGet e "weapon") = true ∧
    isInstStr (pyGet e "server_id") = true ∧
    isInstNumeric (pyGet e "timestamp") = true ∧
    isInstBool (pyGet e "is_suicide") = true := by
  simp only [validate_kill_event, required_fields, List.all_cons, List.all_nil,
    Bool.and_eq_true, Bool.and_true, Bool.not_eq_true'] at h
  simp only [required_fields, List.mem_cons, List.not_mem_nil, forall_eq_or_imp,
    forall_eq, false_implies, and_true]
  tauto

/-- C6 witness: the amended theorem evaluated on a valid event. -/
theorem c6_witness :
    isInstStr (pyGet evValid "killer") = true ∧
    isInstBool (pyGet evValid "is_suicide") = true :=
  ⟨(c6_theorem evValid (by decide)).2.2.1,
   (c6_theorem evValid (by decide)).2.2.2.2.2.2.2⟩

/-- C3 counterexample: `add_kill_event` performs no flood check.  In a
state where player "A" already has `flood_threshold` recent kill times —
so the flood guard flags one more event at the same instant as flooding —
the entry point still appends that event to the buffer. -/
theorem c3_counterexample :
    (isFloodUpdate sFlood.recent_kill_times "A" 0).2 = true ∧
    (addKillEvent sFlood evValid 0).kill_event_buffer = [evValid] := by
  constructor
  · simp [isFloodUpdate, sFlood, time_window, flood_threshold]
  · have hv : validate_kill_event evValid = true := by decide
    simp [addKillEvent, hv, sFlood, buffer_size]

/-- C3 (amended): buffer admission requires only the processor-enabled gate
and the EventValidator; the FloodGuard check runs per event at processing
time inside `process_single_kill_event`, where a flooding event is dropped
before any database write — no event-log append and no counter update. -/
theorem c3_theorem :
    (∀ (s : ProcState) (e : PyDict) (now : ℚ), validate_kill_event e = false →
      (addKillEvent s e now).kill_event_buffer = s.kill_event_buffer) ∧
    (∀ (s : ProcState) (e : PyDict) (ev : KillEvent) (now : ℚ),
      toKillEvent e = some ev →
      (isFloodUpdate s.recent_kill_times ev.killer now).2 = true →
      (processSingle s e now).db_events = s.db_events ∧
      (processSingle s e now).db_stats = s.db_stats) := by
  constructor
  · intro s e now hv
    unfold addKillEvent
    by_cases hen : s.processor_enabled = false
    · rw [if_pos hen]
    · rw [if_neg hen, if_pos hv]
  · intro s e ev now he hf
    unfold processSingle
    rw [he]
    dsimp only
    by_cases hp : is_premium s.bot ev.guild_id = false
    · rw [if_pos hp]
      exact ⟨rfl, rfl⟩
    · rw [if_neg hp, if_pos hf]
      exact ⟨rfl, rfl⟩

/-- C3 witness: the amended theorem evaluated on a malformed event (first
part) and on a flooding valid event in the `sFlood` state (second part). -/
theorem c3_witness :
    (addKillEvent s0 evMissing 0).kill_event_buffer = s0.kill_event_buffer ∧
    (processSingle sFlood evValid 0).db_events = sFlood.db_events ∧
    (processSingle sFlood evValid 0).db_stats = sFlood.db_stats := by
  have hf : (isFloodUpdate sFlood.recent_kill_times "A" 0).2 = true := by
    simp [isFloodUpdate, sFlood, time_window, flood_threshold]
  refine ⟨c3_theorem.1 s0 evMissing 0 (by decide), ?_, ?_⟩
  · exact (c3_theorem.2 sFlood evValid
      ⟨1, "A", "B", "rifle", "srv", .VFloat true 100, false⟩ 0 rfl hf).1
  · exact (c3_theorem.2 sFlood evValid
      ⟨1, "A", "B", "rifle", "srv", .VFloat true 100, false⟩ 0 rfl hf).2

/-- C7: `is_premium` consults the primary provider first and returns its
answer, turning a raise into false; with no primary it consults the
fallback the same way; with neither provider it returns false.  The
function is total and `Bool`-valued — the enclosing `try`/`except` means no
exception ever propagates to its caller. -/
theorem c7_theorem (bot : BotObj) (gid : ℤ) :
    (∀ f b, bot.premium2 = some f → f gid = Except.ok b →
      is_premium bot gid = b) ∧
    (∀ f u, bot.premium2 = some f → f gid = Except.error u →
      is_premium bot gid = false) ∧
    (∀ d f b, bot.premium2 = none → bot.dbManager = some d →
      d.hasPremiumAccess = some f → f gid = Except.ok b →
      is_premium bot gid = b) ∧
    (∀ d f u, bot.premium2 = none → bot.dbManager = some d →
      d.hasPremiumAccess = some f → f gid = Except.error u →
      is_premium bot gid = false) ∧
    (∀ d, bot.premium2 = none → bot.dbManager = some d →
      d.hasPremiumAccess = none → is_premium bot gid = false) ∧
    (bot.premium2 = none → bot.dbManager = none →
      is_premium bot gid = false) := by
  refine ⟨?_, ?_, ?_, ?_, ?_, ?_⟩ <;> intros <;> simp_all [is_premium]

/-- C7 witness: the theorem evaluated on four concrete bots — primary
answering, primary raising, fallback answering, and no provider at all. -/
theorem c7_witness :
    is_premium botPrimaryOk 1 = true ∧
    is_premium botPrimaryErr 1 = false ∧
    is_premium botFallback 1 = true ∧
    is_premium botBare 1 = false :=
  ⟨(c7_theorem botPrimaryOk 1).1 (fun _ => Except.ok true) true rfl rfl,
   (c7_theorem botPrimaryErr 1).2.1 (fun _ => Except.error ()) () rfl rfl,
   (c7_theorem botFallback 1).2.2.1
     { hasPremiumAccess := some (fun _ => Except.ok true) }
     (fun _ => Except.ok true) true rfl rfl rfl rfl,
   (c7_theorem botBare 1).2.2.2.2.2 rfl rfl⟩

/-- C8: both starters refuse a duplicate — when a task's identity tuple is
already in the running-task set, `create_leaderboard` and the `cog_load`
configuration step return with the state exactly unchanged: no task is
created and nothing is added to the set. -/
theorem c8_theorem (st : LBState) (p : CreateParams) (g : ℤ) (c : LBConfig) :
    (createTaskId p ∈ st.running_tasks → createLeaderboard st p = st) ∧
    (loadTaskId g c ∈ st.running_tasks → cogLoadStep st g c = st) := by
  constructor
  · intro h
    unfold createLeaderboard
    dsimp only
    by_cases hi : 1 ≤ p.update_interval ∧ p.update_interval ≤ 720
    · rw [if_neg (not_not_intro hi), if_pos h]
    · rw [if_pos hi]
  · intro h
    unfold cogLoadStep
    by_cases ht : pyTruthyInt c.channel_id = true ∧
        pyTruthyStr c.leaderboard_type = true ∧
        c.server_id.getD "default" ≠ "" ∧ c.update_interval.getD 24 ≠ 0
    · rw [if_neg (not_not_intro ht)]
      dsimp only
      rw [if_pos h]
    · rw [if_pos ht]

/-- C8 witness: with `tidW` already running, the create command and the
startup loader each leave the state unchanged. -/
theorem c8_witness :
    createLeaderboard lbStateW cparamsW = lbStateW ∧
    cogLoadStep lbStateW 1 lbcW = lbStateW :=
  ⟨(c8_theorem lbStateW cparamsW 1 lbcW).1 (by decide),
   (c8_theorem lbStateW cparamsW 1 lbcW).2 (by decide)⟩

/-- C9: whenever `run_leaderboard_task` terminates — by any in-loop return,
by cancellation delivered at any await (including mid-sleep or mid-I/O), or
by an unhandled error — the `finally:` discard guarantees its identity
tuple is absent from the resulting running-task set. -/
theorem c9_theorem (tid : TaskId) (running : Finset TaskId)
    (start : LBStartEnv) (envs : List LBIterEnv) (r : Finset TaskId)
    (h : runLeaderboardTask tid running start envs = some r) : tid ∉ r := by
  unfold runLeaderboardTask at h
  cases hb : lbBody tid running start envs with
  | stillRunning =>
    simp only [hb] at h
    exact Option.noConfusion h
  | returned r0 =>
    simp only [hb, Option.some.injEq] at h
    subst h
    exact Finset.not_mem_erase tid r0
  | interrupted i =>
    simp only [hb, Option.some.injEq] at h
    subst h
    exact Finset.not_mem_erase tid running

/-- C9 witness: the theorem evaluated on a task whose single iteration is
cancelled inside `asyncio.sleep`; the final running-task set is empty. -/
theorem c9_witness :
    runLeaderboardTask tid9 {tid9} start9 [env9] = some ∅ ∧
    tid9 ∉ (∅ : Finset TaskId) := by
  have he : runLeaderboardTask tid9 {tid9} start9 [env9] = some ∅ := by decide
  exact ⟨he, c9_theorem tid9 {tid9} start9 [env9] ∅ he⟩
